import Mathlib

/-!
# Verification of the codepot provisioning core

A shallow embedding of the codepot repository's core components, with
theorems settling the specification claims about them:

* `Net`    — the network provisioner (`src/init/networking.rs`)
* `Boot`   — kernel boot-argument construction (`src/machine/config.rs`)
* `Cfg`    — the persisted configuration record (`src/config.rs`)
* `InitBI` — image materialization via an ephemeral build container
             (`src/init/build_image.rs`)
* `BI`     — the block-image materialization path (`src/build_image.rs`)

External effects (subprocess invocations, the filesystem, the random number
generator) are made explicit: commands are recorded in traces, their
success or failure is decided by an environment/oracle parameter, and
randomness is a stream of picks supplied as an argument.
-/

instance {ε α : Type} [DecidableEq ε] [DecidableEq α] : DecidableEq (Except ε α) :=
  fun x y =>
    match x, y with
    | .ok a, .ok b => decidable_of_iff (a = b) (by simp)
    | .error a, .error b => decidable_of_iff (a = b) (by simp)
    | .ok _, .error _ => isFalse (by simp)
    | .error _, .ok _ => isFalse (by simp)

/-- `Except.ok`? -/
def isOkE {ε α : Type} : Except ε α → Bool
  | .ok _ => true
  | .error _ => false

namespace Net

/-- Embeds `ipnet::Ipv4Net`: an IPv4 address (as a natural number below
`2^32`) together with a prefix length. -/
structure Ipv4Net where
  addr : Nat
  prefix_len : Nat
deriving DecidableEq, Repr

/-- Number of addresses covered by the prefix: `2^(32 - prefix_len)`. -/
def Ipv4Net.blockSize (n : Ipv4Net) : Nat := 2 ^ (32 - n.prefix_len)

/-- `Ipv4Net::network()`: the address with the host bits cleared. -/
def Ipv4Net.network (n : Ipv4Net) : Nat := n.addr / n.blockSize * n.blockSize

/-- `Ipv4Net::broadcast()`: the last address of the block. -/
def Ipv4Net.broadcast (n : Ipv4Net) : Nat := n.network + n.blockSize - 1

/-- `Ipv4Net::hosts()`: the usable host addresses, in ascending order.
For prefix lengths below 31 the network and broadcast addresses are
excluded; for 31 and 32 all addresses of the block are returned
(semantics of `ipnet`'s `hosts` iterator). -/
def Ipv4Net.hosts (n : Ipv4Net) : List Nat :=
  if 31 ≤ n.prefix_len then List.range' n.network n.blockSize
  else List.range' (n.network + 1) (n.blockSize - 2)

/-- An address lies inside the block `B` (between network and broadcast). -/
def Ipv4Net.containsAddr (B : Ipv4Net) (a : Nat) : Prop :=
  B.network ≤ a ∧ a ≤ B.broadcast

instance (B : Ipv4Net) (a : Nat) : Decidable (B.containsAddr a) := by
  unfold Ipv4Net.containsAddr; infer_instance

/-- Decimal rendering of one octet group: `a.b.c.d`. -/
def ipv4AddrToString (a : Nat) : String :=
  toString (a / 16777216 % 256) ++ "." ++ toString (a / 65536 % 256) ++ "." ++
    toString (a / 256 % 256) ++ "." ++ toString (a % 256)

/-- `Display` for `Ipv4Net`: `a.b.c.d/p`. -/
def Ipv4Net.display (n : Ipv4Net) : String :=
  ipv4AddrToString n.addr ++ "/" ++ toString n.prefix_len

/-- Embeds `crate::config::InterfaceConfig`. -/
structure InterfaceConfig where
  if_name : String
  ip_address : Ipv4Net
  mac_address : String
deriving DecidableEq, Repr

/-- `InterfaceConfig::new`. -/
def InterfaceConfig.new (if_name : String) (ip_address : Ipv4Net)
    (mac_address : String) : InterfaceConfig :=
  ⟨if_name, ip_address, mac_address⟩

/-- The alphabet of `rand::distributions::Alphanumeric`. -/
def alnumTable : List Char :=
  "abcdefghijklmnopqrstuvwxyzABCDEFGHIJKLMNOPQRSTUVWXYZ0123456789".data

/-- One sampled alphanumeric character. -/
def alnumChar (i : Fin 62) : Char := alnumTable.getD i.val 'a'

/-- `Alphanumeric.sample_string(rng, len)` drawing picks
`start, start+1, …, start+len-1` from the pick stream. -/
def sampleString (picks : Nat → Fin 62) (start len : Nat) : String :=
  String.mk ((List.range len).map (fun j => alnumChar (picks (start + j))))

/-- `random_if_name()`: fixed prefix plus 6 random alphanumeric characters.
`k` indexes which 6-character chunk of the pick stream is consumed. -/
def random_if_name (picks : Nat → Fin 62) (k : Nat) : String :=
  "vethcdpt" ++ sampleString picks (6 * k) 6

/-- The name of the bridge device (`BRIDGE_NAME`). -/
def BRIDGE_NAME : String := "codepot0"

/-- Environment for a networking run: the random pick stream and, for every
`sudo` shell command, whether it exits successfully. -/
structure NetEnv where
  picks : Nat → Fin 62
  sudoOk : String → Bool

/-- Run a list of `run_sudo` commands in order, stopping at the first
failure.  Returns whether all succeeded and the trace of commands that
were actually issued. -/
def runSudoSeq (sudoOk : String → Bool) : List String → Bool × List String
  | [] => (true, [])
  | c :: rest =>
      if sudoOk c then
        let r := runSudoSeq sudoOk rest
        (r.1, c :: r.2)
      else (false, [c])

/-- The command sequence of `setup_host_interface`. -/
def hostInterfaceCmds (host_if_name : String) (host_address : Ipv4Net) :
    List String :=
  [ "ip link del " ++ BRIDGE_NAME ++ " 2> /dev/null || true"
  , "ip link add name " ++ BRIDGE_NAME ++ " type bridge"
  , "ip addr add " ++ host_address.display ++ " dev " ++ BRIDGE_NAME
  , "ip link set dev " ++ BRIDGE_NAME ++ " up"
  , "iptables -D FORWARD -m conntrack --ctstate RELATED,ESTABLISHED -j ACCEPT || true"
  , "iptables -t nat -D POSTROUTING -o " ++ host_if_name ++ " -j MASQUERADE || true"
  , "iptables -D FORWARD -i " ++ BRIDGE_NAME ++ " -j ACCEPT || true"
  , "iptables -A FORWARD -m conntrack --ctstate RELATED,ESTABLISHED -j ACCEPT"
  , "iptables -t nat -A POSTROUTING -o " ++ host_if_name ++ " -j MASQUERADE"
  , "iptables -A FORWARD -i " ++ BRIDGE_NAME ++ " -j ACCEPT" ]

/-- The command sequence of `setup_tap_interface` for one interface. -/
def tapInterfaceCmds (if_name : String) : List String :=
  [ "ip link del " ++ if_name ++ " 2> /dev/null || true"
  , "ip tuntap add " ++ if_name ++ " mode tap"
  , "ip link set dev " ++ if_name ++ " master " ++ BRIDGE_NAME
  , "ip link set dev " ++ if_name ++ " up" ]

/-- Outcome of a networking run.  `panic` is the `todo!()` path, `diverge`
stands for exhausting the fuel of the (unbounded in the source)
rejection-sampling loop. -/
inductive NetOutcome (α : Type) where
  | ok (a : α)
  | err (msg : String)
  | panic
  | diverge
deriving DecidableEq, Repr

/-- The rejection-sampling loop of `init_networking`: generate a batch of
`n` random names; if they are mutually distinct (the `HashSet` has `n`
elements), pair them with the remaining host addresses and the MAC
addresses, else retry with the next batch.  `t` counts the attempts,
`fuel` bounds them (the source loop is unbounded). -/
def allocLoop (picks : Nat → Fin 62) (n : Nat) (tailAddrs : List Ipv4Net)
    (macs : List String) : Nat → Nat → Option (List InterfaceConfig)
  | 0, _ => none
  | fuel + 1, t =>
      let batch := (List.range n).map (fun i => random_if_name picks (t * n + i))
      if batch.dedup.length = n then
        some (((batch.zip tailAddrs).zip macs).map
          (fun p => InterfaceConfig.new p.1.1 p.1.2 p.2))
      else allocLoop picks n tailAddrs macs fuel (t + 1)

/-- Embeds `init_networking`.  Returns the outcome together with the trace
of `run_sudo` commands issued (in order). -/
def init_networking (env : NetEnv) (fuel : Nat) (max_parallel_vm_count : Nat)
    (host_if_name : String) (net : Ipv4Net) :
    NetOutcome (List InterfaceConfig × Ipv4Net) × List String :=
  if ¬ (max_parallel_vm_count + 1 ≤ net.hosts.length) then
    (.err "More VMs than hostmask allows", [])
  else
    match net.hosts with
    | [] => (.err "invalid hostmask specified", [])
    | first :: rest =>
      -- The gateway `Ipv4Net::new(first, net.prefix_len()).unwrap()` cannot
      -- fail: the prefix length comes from `net` itself.  It is written out
      -- as `⟨first, net.prefix_len⟩` below.
      if max_parallel_vm_count > 1 then (.panic, [])
      else
        match allocLoop env.picks max_parallel_vm_count
            (rest.map (fun a => (⟨a, net.prefix_len⟩ : Ipv4Net)))
            ["06:00:AC:10:00:02"] fuel 0 with
        | none => (.diverge, [])
        | some ifs =>
          if ¬ (runSudoSeq env.sudoOk ["echo 1 > /proc/sys/net/ipv4/ip_forward"]).1 then
            (.err "Command exited with non zero exit code",
              (runSudoSeq env.sudoOk ["echo 1 > /proc/sys/net/ipv4/ip_forward"]).2)
          else if ¬ (runSudoSeq env.sudoOk
              (hostInterfaceCmds host_if_name ⟨first, net.prefix_len⟩)).1 then
            (.err "could not setup host interface",
              (runSudoSeq env.sudoOk ["echo 1 > /proc/sys/net/ipv4/ip_forward"]).2 ++
                (runSudoSeq env.sudoOk (hostInterfaceCmds host_if_name ⟨first, net.prefix_len⟩)).2)
          else if ¬ (runSudoSeq env.sudoOk
              (ifs.flatMap (fun c => tapInterfaceCmds c.if_name))).1 then
            (.err "could not setup tap interface",
              (runSudoSeq env.sudoOk ["echo 1 > /proc/sys/net/ipv4/ip_forward"]).2 ++
                (runSudoSeq env.sudoOk (hostInterfaceCmds host_if_name ⟨first, net.prefix_len⟩)).2 ++
                (runSudoSeq env.sudoOk (ifs.flatMap (fun c => tapInterfaceCmds c.if_name))).2)
          else
            (.ok (ifs, ⟨first, net.prefix_len⟩),
              (runSudoSeq env.sudoOk ["echo 1 > /proc/sys/net/ipv4/ip_forward"]).2 ++
                (runSudoSeq env.sudoOk (hostInterfaceCmds host_if_name ⟨first, net.prefix_len⟩)).2 ++
                (runSudoSeq env.sudoOk (ifs.flatMap (fun c => tapInterfaceCmds c.if_name))).2)

end Net

namespace Boot

/-- `key.contains([' ', '='])` of `BootArgs::arg`. -/
def hasSpaceOrEq (s : String) : Bool :=
  s.data.any (fun c => c = ' ' || c = '=')

/-- The quoting performed by `BootArgs::arg`: wrap in double quotes when
the string contains a space or an equals sign. -/
def quoteWrap (s : String) : String :=
  if hasSpaceOrEq s then "\"" ++ s ++ "\"" else s

/-- The text `BootArgs::arg` appends for one key/value pair (after the
leading separator space). -/
def argString (key value : String) : String :=
  quoteWrap key ++ "=" ++ quoteWrap value

/-- `BootArgs::arg` itself: push a space, the (possibly quoted) key, `=`,
and the (possibly quoted) value onto the accumulated boot args. -/
def bootArgsArg (args key value : String) : String :=
  args ++ " " ++ argString key value

/-- Modelled from the spec: the guest-side boot script splits a serialized
argument on the first `=` that is not inside double quotes.  Returns the
characters before that `=` and the characters after it; `none` when no
unquoted `=` exists.  The flag tracks whether the scan is currently inside
a quoted region. -/
def splitUnquotedEq : Bool → List Char → Option (List Char × List Char)
  | _, [] => none
  | inQ, c :: rest =>
      if c = '"' then
        (splitUnquotedEq (!inQ) rest).map (fun p => ('"' :: p.1, p.2))
      else if inQ then
        (splitUnquotedEq true rest).map (fun p => (c :: p.1, p.2))
      else if c = '=' then
        some ([], rest)
      else
        (splitUnquotedEq false rest).map (fun p => (c :: p.1, p.2))

/-- Modelled from the spec: unquoting — strip one pair of wrapping double
quotes if present, otherwise leave the characters unchanged. -/
def unquoteL (l : List Char) : List Char :=
  match l with
  | [] => []
  | c :: rest =>
      if c = '"' ∧ rest.getLast? = some '"' then rest.dropLast else c :: rest

/-- Modelled from the spec: parse one serialized `key=value` argument by
splitting on the first unquoted `=` and unquoting both sides. -/
def parseArg (s : String) : Option (String × String) :=
  (splitUnquotedEq false s.data).map
    (fun p => (String.mk (unquoteL p.1), String.mk (unquoteL p.2)))

end Boot

namespace Cfg

/-- Embeds `crate::config::Config`. -/
structure Config where
  max_parallel_vm_count : Nat
  net : Net.Ipv4Net
  host_ifname : String
  host_address : Net.Ipv4Net
  interfaces : List Net.InterfaceConfig
deriving DecidableEq, Repr

/-- JSON string literal (the strings in play contain no characters that
`serde_json` would escape). -/
def jsonStr (s : String) : String := "\"" ++ s ++ "\""

/-- `serde_json` serialization of one `InterfaceConfig`, field order as
declared.  `Ipv4Net` serializes as its display string. -/
def interfaceToJson (c : Net.InterfaceConfig) : String :=
  "\x7b\"if_name\":" ++ jsonStr c.if_name ++
    ",\"ip_address\":" ++ jsonStr c.ip_address.display ++
    ",\"mac_address\":" ++ jsonStr c.mac_address ++ "\x7d"

/-- `serde_json::to_string` of a `Config`, field order as declared. -/
def configToJson (cfg : Config) : String :=
  "\x7b\"max_parallel_vm_count\":" ++ toString cfg.max_parallel_vm_count ++
    ",\"net\":" ++ jsonStr cfg.net.display ++
    ",\"host_ifname\":" ++ jsonStr cfg.host_ifname ++
    ",\"host_address\":" ++ jsonStr cfg.host_address.display ++
    ",\"interfaces\":[" ++
    String.intercalate "," (cfg.interfaces.map interfaceToJson) ++ "]\x7d"

/-- Embeds `Config::write`.  The file at the path is `none` when absent,
`some bytes` when present.  `File::create_new` fails when the file exists.
`write_all` is modelled with an explicit capacity `writeLimit`: the
underlying writer accepts that many bytes before erroring (`none` = the
write never errors), so a failing write leaves a partially-written file. -/
def configWrite (writeLimit : Option Nat) (file : Option String)
    (cfg : Config) : Except String Unit × Option String :=
  let contents := configToJson cfg
  match file with
  | some old => (.error "File exists", some old)
  | none =>
      match writeLimit with
      | none => (.ok (), some contents)
      | some k =>
          if contents.length ≤ k then (.ok (), some contents)
          else (.error "write failed", some (contents.take k))

end Cfg

namespace InitBI

/-- The external commands issued during image materialization
(`src/init/build_image.rs`).  `bCopy` records the chmod mode, the target
container, the copied contents and the container-side path; the host-side
source is a fresh anonymous temp file in the source and is elided. -/
inductive BCmd where
  | bFrom (base : String)
  | bRun (id cmd : String)
  | bRunIn (dir id cmd : String)
  | bChroot (id dir cmd : String)
  | bCopy (mode id contents ctrPath : String)
  | bUnshare (id cmd : String)
  | bRm (id : String)
  | download (url : String)
deriving DecidableEq, Repr

/-- `true` for the build-toolchain (`buildah`) commands, `false` for the
kernel download. -/
def isBuildahCmd : BCmd → Bool
  | .download _ => false
  | _ => true

/-- `true` exactly for the container teardown command. -/
def isRmCmd : BCmd → Bool
  | .bRm _ => true
  | _ => false

/-- Environment of a build run: for every external command whether it
succeeds, the raw stdout of the creation command, and the bytes produced
by the initrd extraction and the kernel download. -/
structure BEnv where
  ok : BCmd → Bool
  fromOut : String
  initrdBytes : String
  kernelBytes : String

/-- The host filesystem locations `init_images` reads and writes:
the initrd image and the kernel image (`none` = absent). -/
structure FS where
  initrd : Option String
  kernel : Option String
deriving DecidableEq, Repr

/-- Embeds `EphemeralContainer` (the `src/init/build_image.rs` variant). -/
structure EphemeralContainer where
  container_id : String
  username : String
  password : String
  uid : Nat
  gid : Nat
deriving DecidableEq, Repr

/-- The id validation of `EphemeralContainer::new`: pure ASCII and none of
`'\n'`, `'\t'`, `'\r'`. -/
def validId (s : String) : Bool :=
  s.data.all (fun c => c.toNat < 128) &&
    !(s.data.any (fun c => c = '\n' || c = '\t' || c = '\r'))

/-- The whitespace characters stripped by `str::trim` that can occur in
ASCII output (Unicode `White_Space` restricted to the ASCII range). -/
def isWsChar (c : Char) : Bool :=
  c = ' ' || c = '\t' || c = '\n' || c = '\r' ||
    c = Char.ofNat 11 || c = Char.ofNat 12

/-- `str::trim`: drop leading and trailing whitespace. -/
def trimChars (l : List Char) : List Char :=
  ((l.dropWhile isWsChar).reverse.dropWhile isWsChar).reverse

/-- `str::trim` on strings. -/
def trimStr (s : String) : String := String.mk (trimChars s.data)

/-- Run a list of external commands in order, stopping at the first
failure.  The trace records each issued command with its outcome. -/
def runSteps (env : BEnv) : List BCmd → Bool × List (BCmd × Bool)
  | [] => (true, [])
  | c :: rest =>
      if env.ok c then
        ((runSteps env rest).1, (c, true) :: (runSteps env rest).2)
      else (false, [(c, false)])

/-- The teardown performed by `impl Drop for EphemeralContainer`: issue
`buildah rm <id>`; its outcome is recorded in the trace (the source only
logs a failure) and is used for nothing else. -/
def dropCmd (env : BEnv) (c : EphemeralContainer) : BCmd × Bool :=
  (BCmd.bRm c.container_id, env.ok (BCmd.bRm c.container_id))

/-- Embeds `EphemeralContainer::new`: run `buildah from alpine:3.20`, trim
its stdout, validate the id, and only then construct the value.  An error
return before the value is constructed issues no teardown. -/
def ecNew (env : BEnv) (username password : String) :
    Except String EphemeralContainer × List (BCmd × Bool) :=
  if env.ok (BCmd.bFrom "alpine:3.20") then
    if validId (trimStr env.fromOut) then
      (.ok ⟨trimStr env.fromOut, username, password, 1000, 1000⟩,
        [(BCmd.bFrom "alpine:3.20", true)])
    else
      (.error "Could not create ephemeral container: Invalid output from buildah",
        [(BCmd.bFrom "alpine:3.20", true)])
  else
    (.error "Could not create ephemeral container", [(BCmd.bFrom "alpine:3.20", false)])

/-- Modelled from the spec: contents of `vm_utils/get_cmdline_key`
(embedded via `include_str!`; the file is not part of `src/`). -/
def GET_CMDLINE_KEY_SCRIPT : String := "vm_utils/get_cmdline_key contents"

/-- Modelled from the spec: contents of `vm_utils/cmdline_static`. -/
def IFUPDOWN_EXECUTOR_SCRIPT : String := "vm_utils/cmdline_static contents"

/-- Modelled from the spec: contents of `vm_utils/interfaces`. -/
def INTERFACES_CONFIG : String := "vm_utils/interfaces contents"

/-- Modelled from the spec: contents of `vm_utils/motd`. -/
def MOTD : String := "vm_utils/motd contents"

/-- The command sequence of `EphemeralContainer::setup`, in source order.
String continuations (`\` at end of line in the Rust literals) join the
pieces exactly as the Rust compiler does. -/
def setupSteps (c : EphemeralContainer) : List BCmd :=
  [ .bRun c.container_id "mkdir /build"
  , .bRun c.container_id "apk update"
  , .bRun c.container_id "apk add dropbear ca-certificates gcc"
  , .bRun c.container_id
      ("apk -X http://dl-5.alpinelinux.org/alpine/latest-stable/main -U --allow-untrusted --root /build --initdb add" ++
        " alpine-base openrc util-linux dropbear grep doas rust")
  , .bRunIn "/build" c.container_id "cp /etc/apk/repositories ./etc/apk/repositories"
  , .bRun c.container_id ("mkdir -p /build/home/" ++ c.username ++ "/")
  , .bChroot c.container_id "/build"
      ("addgroup -g " ++ toString c.gid ++ " -S " ++ c.username ++
        " && adduser -u " ++ toString c.uid ++ " -S " ++ c.username ++
        " -G " ++ c.username ++ " -G wheel -h /home/" ++ c.username ++
        " -s /bin/sh && echo \"" ++ c.username ++ ":" ++ c.password ++
        "\" | chpasswd")
  , .bRunIn "/build" c.container_id
      "echo 'permit nopass :wheel' > ./etc/doas.d/doas.conf"
  , .bRunIn "/build" c.container_id
      ("ln -s agetty ./etc/init.d/agetty.ttyS0 && echo ttyS0 > ./etc/securetty" ++
        " && ln -sf /etc/init.d/agetty.ttyS0 ./etc/runlevels/default/agetty.ttyS0")
  , .bRunIn "/build" c.container_id
      ("ln -sf /etc/init.d/devfs  ./etc/runlevels/boot/devfs && " ++
        "ln -sf /etc/init.d/procfs     ./etc/runlevels/boot/procfs && " ++
        "ln -sf /etc/init.d/sysfs      ./etc/runlevels/boot/sysfs && " ++
        "ln -sf networking             ./etc/init.d/net.eth0 && " ++
        "ln -sf /etc/init.d/networking ./etc/runlevels/default/networking && " ++
        "ln -sf /etc/init.d/net.eth0   ./etc/runlevels/default/net.eth0 && " ++
        "ln -sf dropbearr              ./etc/init.d/dropbear.eth0")
  , .bRunIn "/build" c.container_id
      "mkdir ./run/openrc && touch ./run/openrc/softlevel"
  , .bCopy "755" c.container_id GET_CMDLINE_KEY_SCRIPT "/build/usr/local/bin/get_cmdline_key"
  , .bCopy "755" c.container_id IFUPDOWN_EXECUTOR_SCRIPT "/build/usr/libexec/ifupdown-ng/cmdline_static"
  , .bCopy "644" c.container_id INTERFACES_CONFIG "/build/etc/network/interfaces"
  , .bCopy "644" c.container_id MOTD "/build/etc/motd"
  , .bRunIn "/build" c.container_id
      "echo 'DROPBEAR_OPTS=\"-w -j\"' > ./etc/conf.d/dropbear" ]

/-- Embeds `EphemeralContainer::build`: create, then run the setup
sequence.  When setup fails, the container value goes out of scope on the
error return, so its teardown command is issued. -/
def ecBuild (env : BEnv) (username password : String) :
    Except String EphemeralContainer × List (BCmd × Bool) :=
  match ecNew env username password with
  | (.error e, tr) => (.error e, tr)
  | (.ok c, tr) =>
      if (runSteps env (setupSteps c)).1 then
        (.ok c, tr ++ (runSteps env (setupSteps c)).2)
      else
        (.error "setup failed",
          tr ++ (runSteps env (setupSteps c)).2 ++ [dropCmd env c])

/-- The two archive-building commands of `build_initrd`. -/
def initrdSteps (c : EphemeralContainer) : List BCmd :=
  [ .bRunIn "/build" c.container_id "ln -sf /sbin/init ./init"
  , .bRunIn "/build" c.container_id
      "find . -print0 | cpio --null --create --verbose --format=newc | tee > /initrd" ]

/-- Embeds `EphemeralContainer::build_initrd`: the two archive-building
commands, the extraction to the host path, and — because the method takes
the container by value — the teardown command on every exit. -/
def buildInitrd (env : BEnv) (c : EphemeralContainer) (initrdPath : String) :
    Except String Unit × List (BCmd × Bool) :=
  if (runSteps env (initrdSteps c)).1 then
    if env.ok (BCmd.bUnshare c.container_id ("cp -r $MNT_PATH//initrd " ++ initrdPath)) then
      (.ok (),
        (runSteps env (initrdSteps c)).2 ++
          [(BCmd.bUnshare c.container_id ("cp -r $MNT_PATH//initrd " ++ initrdPath), true),
            dropCmd env c])
    else
      (.error "Could not mount ephemeral container",
        (runSteps env (initrdSteps c)).2 ++
          [(BCmd.bUnshare c.container_id ("cp -r $MNT_PATH//initrd " ++ initrdPath), false),
            dropCmd env c])
  else (.error "setup failed", (runSteps env (initrdSteps c)).2 ++ [dropCmd env c])

/-- `KERNEL_IMAGE_DOWNLOAD_URL`. -/
def kernelUrl : String :=
  "https://s3.amazonaws.com/spec.ccfc.min/firecracker-ci/v1.9/x86_64/vmlinux-5.10.219-no-acpi"

/-- The kernel half of `init_images`: skip when the kernel image exists,
otherwise download it and write the file. -/
def kernelPhase (env : BEnv) (fs : FS) :
    Except String Unit × FS × List (BCmd × Bool) :=
  if fs.kernel.isSome then (.ok (), fs, [])
  else if env.ok (.download kernelUrl) then
    (.ok (), { fs with kernel := some env.kernelBytes }, [(.download kernelUrl, true)])
  else
    (.error "Could not download kernel image", fs, [(.download kernelUrl, false)])

/-- Embeds `init_images`: build the initrd unless it already exists (a
warning is logged in that case), then download the kernel unless it
already exists. -/
def initImages (env : BEnv) (fs : FS) (initrdPath username password : String) :
    Except String Unit × FS × List (BCmd × Bool) :=
  if fs.initrd.isSome then kernelPhase env fs
  else
    match ecBuild env username password with
    | (.error e, tr) => (.error e, fs, tr)
    | (.ok c, tr) =>
        match buildInitrd env c initrdPath with
        | (.error e, tr2) => (.error e, fs, tr ++ tr2)
        | (.ok _, tr2) =>
            ((kernelPhase env { fs with initrd := some env.initrdBytes }).1,
              (kernelPhase env { fs with initrd := some env.initrdBytes }).2.1,
              tr ++ tr2 ++
                (kernelPhase env { fs with initrd := some env.initrdBytes }).2.2)

/-- Two environments that may disagree only on the outcomes of teardown
(`buildah rm`) commands. -/
def agreeExceptRm (env env' : BEnv) : Prop :=
  env.fromOut = env'.fromOut ∧ env.initrdBytes = env'.initrdBytes ∧
    env.kernelBytes = env'.kernelBytes ∧
    ∀ c, isRmCmd c = false → env.ok c = env'.ok c

end InitBI

namespace BI

/-- Environment for `EphemeralContainer::to_image`
(`src/build_image.rs`): whether each fallible step succeeds. -/
structure ImgEnv where
  okFill : Bool
  okFlush : Bool
  okMkfs : Bool
  okTempDir : Bool
  okUnshareCp : Bool
  okSudoCp : Bool
deriving DecidableEq, Repr

/-- The scope guard wrapped around the image file: when the guard runs at
scope end, the file survives only if the completion marker (`defused`) was
set. -/
def guardRelease (defused fileStillThere : Bool) : Bool :=
  if defused then fileStillThere else false

/-- Embeds `EphemeralContainer::to_image` with respect to the target path:
`imageExists` says whether a file is already at the path, the returned
`Bool` whether a file is there afterwards.  `File::create_new` fails when
the file exists; every later failure exits through the scope guard, which
removes the created file because the completion marker is only set
immediately before the successful return. -/
def toImage (env : ImgEnv) (imageExists : Bool) : Except String Unit × Bool :=
  if imageExists then (.error "Could not create image file", true)
  else
    if !env.okFill then (.error "zero-fill failed", guardRelease false true)
    else if !env.okFlush then (.error "flush failed", guardRelease false true)
    else if !env.okMkfs then (.error "mkfs.ext4 failed", guardRelease false true)
    else if !env.okTempDir then (.error "tempdir failed", guardRelease false true)
    else if !env.okUnshareCp then
      (.error "Could not mount ephemeral container", guardRelease false true)
    else if !env.okSudoCp then
      (.error "Could not cp to image", guardRelease false true)
    else (.ok (), guardRelease true true)

end BI

/-! ## Concrete environments used by witnesses and counterexamples -/

/-- A pick stream that always selects the first alphanumeric character. -/
def constPicks : Nat → Fin 62 := fun _ => ⟨0, by decide⟩

/-- A networking environment in which every `sudo` command succeeds. -/
def allOkNetEnv : Net.NetEnv := ⟨constPicks, fun _ => true⟩

/-- A build environment in which every command succeeds but the creation
command's stdout contains an interior tab. -/
def envBadTab : InitBI.BEnv := ⟨fun _ => true, "a\tb", "initrd-bytes", "kernel-bytes"⟩

/-- A build environment in which every command succeeds and the creation
command's stdout contains a BEL control character. -/
def envBel : InitBI.BEnv :=
  ⟨fun _ => true, String.mk ['a', Char.ofNat 7, 'b'], "initrd-bytes", "kernel-bytes"⟩

/-- A build environment in which every command succeeds. -/
def envAllOk : InitBI.BEnv :=
  ⟨fun _ => true, "working-container-1", "initrd-bytes", "kernel-bytes"⟩

/-- A build environment in which exactly the teardown commands fail. -/
def envRmFails : InitBI.BEnv :=
  ⟨fun c => !InitBI.isRmCmd c, "working-container-1", "initrd-bytes", "kernel-bytes"⟩

/-- A concrete configuration record. -/
def cfg0 : Cfg.Config :=
  ⟨1, ⟨167772160, 29⟩, "eth0", ⟨167772161, 29⟩,
    [⟨"vethcdptaaaaaa", ⟨167772162, 29⟩, "06:00:AC:10:00:02"⟩]⟩

/-- The claim-side predicate of C7, following the spec's words: an ASCII
control character is a character below 0x20 or the delete character
0x7f. -/
def spec_hasControlChar (s : String) : Bool :=
  s.data.any (fun c => c.toNat < 32 || c.toNat = 127)

/-! ## Claims -/

/-- **C2**: for every block `B` and slot count `n` with
`n + 1 > usable_hosts(B)`, `init_networking` fails immediately with the
capacity error and with an empty command trace, i.e. before any
host-mutating command (forwarding enable, bridge, tap, firewall rule) is
attempted. -/
theorem C2_capacity_failure (env : Net.NetEnv) (fuel n : Nat) (hif : String)
    (net : Net.Ipv4Net) (h : net.hosts.length < n + 1) :
    Net.init_networking env fuel n hif net =
      (.err "More VMs than hostmask allows", []) := by
  unfold Net.init_networking
  rw [if_pos (by omega)]

/-- Witness for C2: block `10.0.0.0/30` has 2 usable hosts, so slot count
2 fails with the capacity error and no command is issued. -/
theorem C2_capacity_failure_witness :
    (Net.Ipv4Net.mk 167772160 30).hosts.length < 2 + 1 ∧
      Net.init_networking allOkNetEnv 1 2 "eth0" ⟨167772160, 30⟩ =
        (.err "More VMs than hostmask allows", []) :=
  ⟨by decide, C2_capacity_failure _ _ _ _ _ (by decide)⟩

/-- **C9**: a slot count greater than one fails fast — the `todo!()` is a
panic, i.e. a fatal failure by design (or, when the capacity check already
fails, a capacity error) — and in either case the command trace is empty,
so no host networking state has been mutated. -/
theorem C9_multi_slot_fatal (env : Net.NetEnv) (fuel n : Nat) (hif : String)
    (net : Net.Ipv4Net) (h : 1 < n) :
    Net.init_networking env fuel n hif net = (.panic, []) ∨
      ∃ m, Net.init_networking env fuel n hif net = (.err m, []) := by
  unfold Net.init_networking
  by_cases hc : n + 1 ≤ net.hosts.length
  · rcases hh : net.hosts with _ | ⟨first, rest⟩
    · exact absurd hc (by simp [hh])
    · refine Or.inl ?_
      rw [if_neg (not_not_intro (hh ▸ hc))]
      simp [h]
  · exact Or.inr ⟨_, by rw [if_pos (by omega)]⟩

/-- Witness for C9: slot count 2 on the roomy block `10.0.0.0/24` panics
(`todo!()`) with an empty command trace. -/
theorem C9_multi_slot_fatal_witness :
    Net.init_networking allOkNetEnv 1 2 "eth0" ⟨167772160, 24⟩ = (.panic, []) ∨
      ∃ m, Net.init_networking allOkNetEnv 1 2 "eth0" ⟨167772160, 24⟩ = (.err m, []) :=
  C9_multi_slot_fatal _ _ _ _ _ (by decide)

/-- **C5**: when no file is at the target path beforehand, the file
persists at the target path after `to_image` if and only if `to_image`
returned success; in particular every failure after image-file creation
deletes the file before returning. -/
theorem C5_no_half_built_image (env : BI.ImgEnv) :
    (BI.toImage env false).1 = .ok () ↔ (BI.toImage env false).2 = true := by
  rcases env with ⟨f, fl, mk, td, un, su⟩
  cases f <;> cases fl <;> cases mk <;> cases td <;> cases un <;> cases su <;>
    simp [BI.toImage, BI.guardRelease]

set_option maxRecDepth 10000 in
/-- Counterexample for C8: with a file system that accepts one byte and
then errors, `Config::write` fails and leaves a file that is neither
absent nor the complete record — the write is not all-or-nothing. -/
theorem C8_counterexample :
    isOkE (Cfg.configWrite (some 1) none cfg0).1 = false ∧
      (Cfg.configWrite (some 1) none cfg0).2 ≠ none ∧
      (Cfg.configWrite (some 1) none cfg0).2 ≠ some (Cfg.configToJson cfg0) := by
  decide

/-- **C8 (amended)**: `Config::write` is performed only if no file exists
at the path — an existing file fails the write and is left unchanged — and
on success the file holds the complete serialized record; but a failure of
the underlying write may leave a partially-written file. -/
theorem C8_create_new_no_overwrite (wl : Option Nat) (file : Option String)
    (cfg : Cfg.Config) :
    (∀ old, file = some old →
        Cfg.configWrite wl file cfg = (.error "File exists", some old)) ∧
      (isOkE (Cfg.configWrite wl file cfg).1 = true →
        file = none ∧
          (Cfg.configWrite wl file cfg).2 = some (Cfg.configToJson cfg)) := by
  unfold Cfg.configWrite
  cases file with
  | some old => simp [isOkE]
  | none =>
      cases wl with
      | none => simp [isOkE]
      | some k =>
          by_cases hk : (Cfg.configToJson cfg).length ≤ k <;> simp [hk, isOkE]

/-- Witness for C8 (amended): a successful write leaves the complete
record on disk. -/
theorem C8_create_new_no_overwrite_witness :
    (none : Option String) = none ∧
      (Cfg.configWrite none none cfg0).2 = some (Cfg.configToJson cfg0) :=
  (C8_create_new_no_overwrite none none cfg0).2 (by decide)

/-- **C6**: when the initrd image already exists, `init_images` issues no
build-toolchain command at all and leaves the initrd bytes unchanged; the
kernel gate is checked independently — with both artifacts present the
run is a no-op, with the kernel absent it is still downloaded. -/
theorem C6_rerun_skips_build (env : InitBI.BEnv) (fs : InitBI.FS)
    (ipath u p : String) (h : fs.initrd.isSome = true) :
    (∀ e ∈ (InitBI.initImages env fs ipath u p).2.2, InitBI.isBuildahCmd e.1 = false) ∧
      (InitBI.initImages env fs ipath u p).2.1.initrd = fs.initrd ∧
      (fs.kernel.isSome = true →
        InitBI.initImages env fs ipath u p = (.ok (), fs, [])) ∧
      (fs.kernel.isSome = false →
        (InitBI.initImages env fs ipath u p).2.2.map Prod.fst =
          [.download InitBI.kernelUrl]) := by
  unfold InitBI.initImages InitBI.kernelPhase
  rw [if_pos h]
  by_cases hk : fs.kernel.isSome
  · simp [hk]
  · cases henv : env.ok (.download InitBI.kernelUrl) <;>
      simp [hk, henv, InitBI.isBuildahCmd]

/-- Witness for C6: with both artifacts present the run is a complete
no-op. -/
theorem C6_rerun_skips_build_witness :
    (∀ e ∈ (InitBI.initImages envAllOk ⟨some "i0", some "k0"⟩ "/vm/initrd" "u" "p").2.2,
        InitBI.isBuildahCmd e.1 = false) ∧
      (InitBI.initImages envAllOk ⟨some "i0", some "k0"⟩ "/vm/initrd" "u" "p").2.1.initrd =
        (InitBI.FS.mk (some "i0") (some "k0")).initrd ∧
      ((InitBI.FS.mk (some "i0") (some "k0")).kernel.isSome = true →
        InitBI.initImages envAllOk ⟨some "i0", some "k0"⟩ "/vm/initrd" "u" "p" =
          (.ok (), ⟨some "i0", some "k0"⟩, [])) ∧
      ((InitBI.FS.mk (some "i0") (some "k0")).kernel.isSome = false →
        (InitBI.initImages envAllOk ⟨some "i0", some "k0"⟩ "/vm/initrd" "u" "p").2.2.map Prod.fst =
          [.download InitBI.kernelUrl]) :=
  C6_rerun_skips_build envAllOk ⟨some "i0", some "k0"⟩ "/vm/initrd" "u" "p" (by decide)

/-- Counterexample for C7: the id `a<BEL>b` is ASCII, contains the control
character BEL (0x07), and is nevertheless accepted by
`EphemeralContainer::new` — the code validates only against newline,
carriage-return and tab, not against all control characters. -/
theorem C7_counterexample :
    spec_hasControlChar (String.mk ['a', Char.ofNat 7, 'b']) = true ∧
      (String.mk ['a', Char.ofNat 7, 'b']).data.all (fun c => c.toNat < 128) = true ∧
      (InitBI.ecNew envBel "codepot" "pw").1 =
        .ok ⟨String.mk ['a', Char.ofNat 7, 'b'], "codepot", "pw", 1000, 1000⟩ := by
  decide

/-- **C7 (amended)**: the trimmed id returned by the creation command must
be pure ASCII and contain no newline, carriage-return or tab; creation
succeeds exactly when the creation command succeeds and this validation
passes, and on a validation failure the build stops having issued only the
creation command — no further command is issued against the id. -/
theorem C7_id_validation (env : InitBI.BEnv) (u p : String) :
    isOkE (InitBI.ecNew env u p).1 =
        (env.ok (.bFrom "alpine:3.20") && InitBI.validId (InitBI.trimStr env.fromOut)) ∧
      (env.ok (.bFrom "alpine:3.20") = true →
        InitBI.validId (InitBI.trimStr env.fromOut) = false →
        InitBI.ecBuild env u p =
          (.error "Could not create ephemeral container: Invalid output from buildah",
            [(.bFrom "alpine:3.20", true)])) := by
  constructor
  · unfold InitBI.ecNew
    cases hok : env.ok (.bFrom "alpine:3.20") <;>
      cases hv : InitBI.validId (InitBI.trimStr env.fromOut) <;>
        simp [hok, hv, isOkE]
  · intro hok hv
    unfold InitBI.ecBuild InitBI.ecNew
    simp [hok, hv]

/-- Witness for C7 (amended): an id with an interior tab fails creation
with only the creation command in the trace. -/
theorem C7_id_validation_witness :
    InitBI.ecBuild envBadTab "u" "p" =
      (.error "Could not create ephemeral container: Invalid output from buildah",
        [(.bFrom "alpine:3.20", true)]) :=
  (C7_id_validation envBadTab "u" "p").2 rfl (by decide)

/-- Scanning characters that are neither `"` nor `=` outside a quoted
region just accumulates them. -/
theorem boot_split_plain (l rest : List Char) (h : ∀ c ∈ l, c ≠ '"' ∧ c ≠ '=') :
    Boot.splitUnquotedEq false (l ++ rest) =
      (Boot.splitUnquotedEq false rest).map (fun p => (l ++ p.1, p.2)) := by
  induction l with
  | nil => cases hs : Boot.splitUnquotedEq false rest <;> simp [hs]
  | cons c cs ih =>
      have hc := h c (by simp)
      have hcs : ∀ x ∈ cs, x ≠ '"' ∧ x ≠ '=' := fun x hx => h x (by simp [hx])
      have e1 : Boot.splitUnquotedEq false (c :: (cs ++ rest)) =
          (Boot.splitUnquotedEq false (cs ++ rest)).map (fun p => (c :: p.1, p.2)) := by
        simp only [Boot.splitUnquotedEq]
        simp [hc.1, hc.2]
      rw [List.cons_append, e1, ih hcs]
      cases Boot.splitUnquotedEq false rest <;> simp

/-- Scanning characters other than `"` inside a quoted region just
accumulates them (in particular an `=` inside quotes does not split). -/
theorem boot_split_inq (l rest : List Char) (h : ∀ c ∈ l, c ≠ '"') :
    Boot.splitUnquotedEq true (l ++ rest) =
      (Boot.splitUnquotedEq true rest).map (fun p => (l ++ p.1, p.2)) := by
  induction l with
  | nil => cases hs : Boot.splitUnquotedEq true rest <;> simp [hs]
  | cons c cs ih =>
      have hc := h c (by simp)
      have hcs : ∀ x ∈ cs, x ≠ '"' := fun x hx => h x (by simp [hx])
      have e1 : Boot.splitUnquotedEq true (c :: (cs ++ rest)) =
          (Boot.splitUnquotedEq true (cs ++ rest)).map (fun p => (c :: p.1, p.2)) := by
        simp only [Boot.splitUnquotedEq]
        simp [hc]
      rw [List.cons_append, e1, ih hcs]
      cases Boot.splitUnquotedEq true rest <;> simp

/-- An unquoted `=` splits immediately. -/
theorem boot_split_sep (qv : List Char) :
    Boot.splitUnquotedEq false ('=' :: qv) = some ([], qv) := by
  simp only [Boot.splitUnquotedEq]
  simp

/-- A `"` toggles the quote flag. -/
theorem boot_split_quote (rest : List Char) (inQ : Bool) :
    Boot.splitUnquotedEq inQ ('"' :: rest) =
      (Boot.splitUnquotedEq (!inQ) rest).map (fun p => ('"' :: p.1, p.2)) := by
  simp only [Boot.splitUnquotedEq]
  simp

/-- Unquoting strips exactly one wrapping pair of quotes. -/
theorem boot_unquote_wrap (l : List Char) :
    Boot.unquoteL ('"' :: (l ++ ['"'])) = l := by
  unfold Boot.unquoteL
  simp [List.getLast?_concat, List.dropLast_concat]

/-- Unquoting a quote-free list is the identity. -/
theorem boot_unquote_plain (l : List Char) (h : ∀ c ∈ l, c ≠ '"') :
    Boot.unquoteL l = l := by
  cases l with
  | nil => rfl
  | cons c cs =>
      unfold Boot.unquoteL
      simp [h c (by simp)]

/-- Splitting the serialized argument at the separator recovers the
(possibly quoted) key part, for quote-free keys. -/
theorem boot_split_argString (key : String) (qv : List Char)
    (hk : ∀ c ∈ key.data, c ≠ '"') :
    Boot.splitUnquotedEq false ((Boot.quoteWrap key).data ++ '=' :: qv) =
      some ((Boot.quoteWrap key).data, qv) := by
  unfold Boot.quoteWrap
  by_cases hs : Boot.hasSpaceOrEq key
  · rw [if_pos hs]
    have hdata : (("\"" : String) ++ key ++ "\"").data = '"' :: (key.data ++ ['"']) := rfl
    rw [hdata]
    rw [show ('"' :: (key.data ++ ['"'])) ++ '=' :: qv =
          '"' :: (key.data ++ (['"'] ++ '=' :: qv)) by simp]
    rw [boot_split_quote]
    simp only [Bool.not_false]
    rw [boot_split_inq key.data (['"'] ++ '=' :: qv) hk]
    rw [show (['"'] ++ '=' :: qv : List Char) = '"' :: ('=' :: qv) by simp]
    rw [boot_split_quote]
    simp only [Bool.not_true]
    rw [boot_split_sep]
    simp
  · rw [if_neg hs]
    have hse : Boot.hasSpaceOrEq key = false := by
      revert hs; cases Boot.hasSpaceOrEq key <;> simp
    have h2 : ∀ c ∈ key.data, c ≠ '"' ∧ c ≠ '=' := by
      intro c hc
      refine ⟨hk c hc, fun hce => ?_⟩
      have hany : key.data.any (fun c => c = ' ' || c = '=') = true :=
        List.any_eq_true.mpr ⟨c, hc, by simp [hce]⟩
      rw [Boot.hasSpaceOrEq] at hse
      rw [hany] at hse
      exact Bool.noConfusion hse
    rw [boot_split_plain key.data ('=' :: qv) h2, boot_split_sep]
    simp

/-- Unquoting undoes exactly the quoting `BootArgs::arg` adds, for
quote-free strings. -/
theorem boot_unquote_quoteWrap (s : String) (h : ∀ c ∈ s.data, c ≠ '"') :
    String.mk (Boot.unquoteL ((Boot.quoteWrap s).data)) = s := by
  unfold Boot.quoteWrap
  by_cases hs : Boot.hasSpaceOrEq s
  · rw [if_pos hs]
    have hdata : (("\"" : String) ++ s ++ "\"").data = '"' :: (s.data ++ ['"']) := rfl
    rw [hdata, boot_unquote_wrap]
  · rw [if_neg hs, boot_unquote_plain s.data h]

/-- Counterexample for C3: the key `a"b=c` contains an `=` (so the claim's
roundtrip assertion applies to it), but quoting it and splitting the
serialized argument on the first unquoted `=` does not recover the
original key and value — the key's own `"` closes the added quote early. -/
theorem C3_counterexample :
    (Boot.hasSpaceOrEq "a\"b=c" = true ∨ Boot.hasSpaceOrEq "v" = true) ∧
      Boot.parseArg (Boot.argString "a\"b=c" "v") ≠ some ("a\"b=c", "v") := by
  decide

/-- **C3 (amended)**: for key/value pairs that contain no double-quote
character, the serialized argument, split on the first unquoted `=` and
unquoted, recovers the original key and value exactly; and for pairs
containing neither a space nor `=`, no quoting is added. -/
theorem C3_quoting_roundtrip (key value : String)
    (hk : ∀ c ∈ key.data, c ≠ '"') (hv : ∀ c ∈ value.data, c ≠ '"') :
    Boot.parseArg (Boot.argString key value) = some (key, value) ∧
      (Boot.hasSpaceOrEq key = false ∧ Boot.hasSpaceOrEq value = false →
        Boot.argString key value = key ++ "=" ++ value) := by
  constructor
  · unfold Boot.parseArg Boot.argString
    have hdata : (Boot.quoteWrap key ++ "=" ++ Boot.quoteWrap value).data =
        (Boot.quoteWrap key).data ++ '=' :: (Boot.quoteWrap value).data := by
      show ((Boot.quoteWrap key).data ++ ['=']) ++ (Boot.quoteWrap value).data = _
      simp
    rw [hdata, boot_split_argString key _ hk]
    simp [boot_unquote_quoteWrap key hk, boot_unquote_quoteWrap value hv]
  · intro hq
    unfold Boot.argString Boot.quoteWrap
    rw [hq.1, hq.2]
    simp

/-- Witness for C3 (amended): the spec's own example — key `ssh_key`,
value `ab cd` — roundtrips, and quote-free pairs stay unquoted. -/
theorem C3_quoting_roundtrip_witness :
    Boot.parseArg (Boot.argString "ssh_key" "ab cd") = some ("ssh_key", "ab cd") ∧
      (Boot.hasSpaceOrEq "ssh_key" = false ∧ Boot.hasSpaceOrEq "ab cd" = false →
        Boot.argString "ssh_key" "ab cd" = "ssh_key" ++ "=" ++ "ab cd") :=
  C3_quoting_roundtrip "ssh_key" "ab cd" (by decide) (by decide)

/-- The usable-host list of a block contains no duplicates. -/
theorem hosts_nodup (net : Net.Ipv4Net) : net.hosts.Nodup := by
  unfold Net.Ipv4Net.hosts
  split <;> exact List.nodup_range' _ _ 1 (by norm_num)

/-- Every member of the usable-host list lies inside the block. -/
theorem hosts_mem_containsAddr (net : Net.Ipv4Net) (a : Nat)
    (h : a ∈ net.hosts) : net.containsAddr a := by
  unfold Net.Ipv4Net.hosts at h
  unfold Net.Ipv4Net.containsAddr Net.Ipv4Net.broadcast
  have hbs : 0 < net.blockSize := by
    unfold Net.Ipv4Net.blockSize
    positivity
  split at h
  · rw [List.mem_range'_1] at h
    omega
  · rename_i hp
    have h4 : 4 ≤ net.blockSize := by
      unfold Net.Ipv4Net.blockSize
      calc (4 : Nat) = 2 ^ 2 := rfl
        _ ≤ 2 ^ (32 - net.prefix_len) := Nat.pow_le_pow_right (by norm_num) (by omega)
    rw [List.mem_range'_1] at h
    omega

/-- A slot count of zero makes the rejection-sampling loop return the
empty batch at the first attempt. -/
theorem allocLoop_zero (picks : Nat → Fin 62) (tailAddrs : List Net.Ipv4Net)
    (macs : List String) (fuel t : Nat) :
    Net.allocLoop picks 0 tailAddrs macs (fuel + 1) t = some [] := by
  unfold Net.allocLoop
  simp

/-- A slot count of one makes the rejection-sampling loop succeed at the
first attempt: a single name never collides with itself. -/
theorem allocLoop_one (picks : Nat → Fin 62) (tailAddrs : List Net.Ipv4Net)
    (macs : List String) (fuel t : Nat) :
    Net.allocLoop picks 1 tailAddrs macs (fuel + 1) t =
      some ((([Net.random_if_name picks t].zip tailAddrs).zip macs).map
        (fun p => Net.InterfaceConfig.new p.1.1 p.1.2 p.2)) := by
  unfold Net.allocLoop
  simp [List.range_succ, List.dedup_cons_of_not_mem]

/-- Anatomy of a successful `init_networking` run: the gateway is the
first usable host, the slot count passed the capacity and
single-slot checks, and the descriptors come from the sampling loop. -/
theorem init_networking_ok_elim (env : Net.NetEnv) (fuel n : Nat) (hif : String)
    (net : Net.Ipv4Net) (ifs : List Net.InterfaceConfig) (host : Net.Ipv4Net)
    (h : (Net.init_networking env fuel n hif net).1 = .ok (ifs, host)) :
    ∃ first rest, net.hosts = first :: rest ∧
      host = ⟨first, net.prefix_len⟩ ∧ n + 1 ≤ net.hosts.length ∧ n ≤ 1 ∧
      Net.allocLoop env.picks n (rest.map (fun a => ⟨a, net.prefix_len⟩))
        ["06:00:AC:10:00:02"] fuel 0 = some ifs := by
  unfold Net.init_networking at h
  split at h
  · simp at h
  · rename_i hcap
    split at h
    · simp at h
    · rename_i first rest hh
      split at h
      · simp at h
      · rename_i hn
        split at h
        · simp at h
        · rename_i ifs0 hal
          split at h
          · simp at h
          · split at h
            · simp at h
            · split at h
              · simp at h
              · injection h with h'
                injection h' with h1 h2
                refine ⟨first, rest, hh, h2.symm, by omega, by omega, ?_⟩
                rw [hal, h1]

/-- Every sampled character is alphanumeric. -/
theorem alnumChar_isAlphanum : ∀ i : Fin 62, (Net.alnumChar i).isAlphanum = true := by
  decide

/-- **C1**: for every block and slot count `n` passing the capacity check
`n + 1 ≤ usable_hosts`, a successful `init_networking` run returns exactly
`n` descriptors with pairwise-distinct interface names, pairwise-distinct
addresses, all distinct from the gateway address and all inside the
block.  (Slot counts above 1 never return successfully — the `todo!()`
panics — so the successful runs are those with `n ≤ 1`.) -/
theorem C1_allocator_correct (env : Net.NetEnv) (fuel n : Nat) (hif : String)
    (net : Net.Ipv4Net) (ifs : List Net.InterfaceConfig) (host : Net.Ipv4Net)
    (hcap : n + 1 ≤ net.hosts.length)
    (h : (Net.init_networking env fuel n hif net).1 = .ok (ifs, host)) :
    ifs.length = n ∧
      (ifs.map (fun d => d.if_name)).Nodup ∧
      (ifs.map (fun d => d.ip_address.addr)).Nodup ∧
      (∀ d ∈ ifs, d.ip_address.addr ≠ host.addr) ∧
      (∀ d ∈ ifs, net.containsAddr d.ip_address.addr) := by
  obtain ⟨first, rest, hh, hhost, hcap', hn1, hal⟩ :=
    init_networking_ok_elim env fuel n hif net ifs host h
  cases fuel with
  | zero => simp [Net.allocLoop] at hal
  | succ f =>
      interval_cases n
      · rw [allocLoop_zero] at hal
        obtain rfl : ([] : List Net.InterfaceConfig) = ifs := Option.some.inj hal
        simp
      · cases rest with
        | nil =>
            rw [hh] at hcap
            simp at hcap
        | cons a2 rest2 =>
            rw [allocLoop_one] at hal
            have hifs : ifs = [Net.InterfaceConfig.new (Net.random_if_name env.picks 0)
                ⟨a2, net.prefix_len⟩ "06:00:AC:10:00:02"] := by
              simpa using hal.symm
            have hne : a2 ≠ first := by
              have hnd := hosts_nodup net
              rw [hh] at hnd
              have := (List.nodup_cons.mp hnd).1
              intro hcontra
              exact this (by simp [hcontra])
            have hmem : a2 ∈ net.hosts := by
              rw [hh]
              simp
            subst hifs
            refine ⟨by simp, by simp, by simp, ?_, ?_⟩
            · intro d hd
              rw [List.mem_singleton] at hd
              subst hd
              rw [hhost]
              exact hne
            · intro d hd
              rw [List.mem_singleton] at hd
              subst hd
              exact hosts_mem_containsAddr net a2 hmem

/-- Witness for C1: the end-to-end scenario of the spec — block
`10.0.0.0/29`, slot count 1, every command succeeding — yields one
descriptor satisfying all the invariants. -/
theorem C1_allocator_correct_witness :
    1 + 1 ≤ (Net.Ipv4Net.mk 167772160 29).hosts.length ∧
      (([⟨"vethcdptaaaaaa", ⟨167772162, 29⟩, "06:00:AC:10:00:02"⟩] :
            List Net.InterfaceConfig).length = 1 ∧
        (([⟨"vethcdptaaaaaa", ⟨167772162, 29⟩, "06:00:AC:10:00:02"⟩] :
            List Net.InterfaceConfig).map (fun d => d.if_name)).Nodup ∧
        (([⟨"vethcdptaaaaaa", ⟨167772162, 29⟩, "06:00:AC:10:00:02"⟩] :
            List Net.InterfaceConfig).map (fun d => d.ip_address.addr)).Nodup ∧
        (∀ d ∈ ([⟨"vethcdptaaaaaa", ⟨167772162, 29⟩, "06:00:AC:10:00:02"⟩] :
            List Net.InterfaceConfig),
          d.ip_address.addr ≠ (Net.Ipv4Net.mk 167772161 29).addr) ∧
        (∀ d ∈ ([⟨"vethcdptaaaaaa", ⟨167772162, 29⟩, "06:00:AC:10:00:02"⟩] :
            List Net.InterfaceConfig),
          (Net.Ipv4Net.mk 167772160 29).containsAddr d.ip_address.addr)) :=
  ⟨by decide,
    C1_allocator_correct allOkNetEnv 1 1 "eth0" ⟨167772160, 29⟩
      [⟨"vethcdptaaaaaa", ⟨167772162, 29⟩, "06:00:AC:10:00:02"⟩]
      ⟨167772161, 29⟩ (by decide) (by decide)⟩

/-- **C10**: a successful single-slot `init_networking` run is
deterministic except for the interface name: the gateway is the first
usable host with the block's prefix length, the single descriptor's
address is the second usable host with the block's prefix length, its MAC
address is the fixed string `06:00:AC:10:00:02`, and its interface name is
the literal `vethcdpt` followed by exactly 6 alphanumeric characters. -/
theorem C10_single_slot_shape (env : Net.NetEnv) (fuel : Nat) (hif : String)
    (net : Net.Ipv4Net) (ifs : List Net.InterfaceConfig) (host : Net.Ipv4Net)
    (h : (Net.init_networking env fuel 1 hif net).1 = .ok (ifs, host)) :
    ∃ first a2 rest2 sfx,
      net.hosts = first :: a2 :: rest2 ∧
      host = ⟨first, net.prefix_len⟩ ∧
      (sfx : String).length = 6 ∧
      sfx.data.all Char.isAlphanum = true ∧
      ifs = [⟨"vethcdpt" ++ sfx, ⟨a2, net.prefix_len⟩, "06:00:AC:10:00:02"⟩] := by
  obtain ⟨first, rest, hh, hhost, hcap', hn1, hal⟩ :=
    init_networking_ok_elim env fuel 1 hif net ifs host h
  cases fuel with
  | zero => simp [Net.allocLoop] at hal
  | succ f =>
      cases rest with
      | nil =>
          rw [hh] at hcap'
          simp at hcap'
      | cons a2 rest2 =>
          rw [allocLoop_one] at hal
          refine ⟨first, a2, rest2, Net.sampleString env.picks 0 6, hh, hhost, ?_, ?_, ?_⟩
          · rfl
          · unfold Net.sampleString
            simp only [String.data]
            rw [List.all_eq_true]
            intro c hc
            rw [List.mem_map] at hc
            obtain ⟨j, -, rfl⟩ := hc
            exact alnumChar_isAlphanum _
          · have := Option.some.inj hal
            rw [← this]
            simp [Net.random_if_name, Net.InterfaceConfig.new]

/-- Witness for C10: the concrete single-slot run on `10.0.0.0/29`. -/
theorem C10_single_slot_shape_witness :
    ∃ first a2 rest2 sfx,
      (Net.Ipv4Net.mk 167772160 29).hosts = first :: a2 :: rest2 ∧
      (Net.Ipv4Net.mk 167772161 29) =
        ⟨first, (Net.Ipv4Net.mk 167772160 29).prefix_len⟩ ∧
      (sfx : String).length = 6 ∧
      sfx.data.all Char.isAlphanum = true ∧
      ([⟨"vethcdptaaaaaa", ⟨167772162, 29⟩, "06:00:AC:10:00:02"⟩] :
          List Net.InterfaceConfig) =
        [⟨"vethcdpt" ++ sfx, ⟨a2, (Net.Ipv4Net.mk 167772160 29).prefix_len⟩,
          "06:00:AC:10:00:02"⟩] :=
  C10_single_slot_shape allOkNetEnv 1 "eth0" ⟨167772160, 29⟩
    [⟨"vethcdptaaaaaa", ⟨167772162, 29⟩, "06:00:AC:10:00:02"⟩]
    ⟨167772161, 29⟩ (by decide)

/-- Every command recorded by a step run comes from the step list. -/
theorem runSteps_trace_mem (env : InitBI.BEnv) (steps : List InitBI.BCmd) :
    ∀ e ∈ (InitBI.runSteps env steps).2, e.1 ∈ steps := by
  induction steps with
  | nil =>
      intro e he
      simp [InitBI.runSteps] at he
  | cons c rest ih =>
      intro e he
      unfold InitBI.runSteps at he
      by_cases hc : env.ok c
      · rw [if_pos hc] at he
        rcases List.mem_cons.mp he with rfl | he'
        · simp
        · simp [ih e he']
      · rw [if_neg hc] at he
        rcases List.mem_cons.mp he with rfl | he'
        · simp
        · simp at he'

/-- A step run over rm-free steps records no teardown command. -/
theorem runSteps_no_rm (env : InitBI.BEnv) (steps : List InitBI.BCmd) (id : String)
    (hsteps : ∀ c ∈ steps, InitBI.isRmCmd c = false) :
    ((InitBI.runSteps env steps).2.map Prod.fst).count (InitBI.BCmd.bRm id) = 0 := by
  rw [List.count_eq_zero]
  intro hmem
  rw [List.mem_map] at hmem
  obtain ⟨e, he, hfst⟩ := hmem
  have hh := hsteps e.1 (runSteps_trace_mem env steps e he)
  rw [hfst] at hh
  simp [InitBI.isRmCmd] at hh

/-- The setup sequence contains no teardown command. -/
theorem setupSteps_no_rm (c : InitBI.EphemeralContainer) :
    ∀ x ∈ InitBI.setupSteps c, InitBI.isRmCmd x = false := by
  intro x hx
  fin_cases hx <;> rfl

/-- The archive-building sequence contains no teardown command. -/
theorem initrdSteps_no_rm (c : InitBI.EphemeralContainer) :
    ∀ x ∈ InitBI.initrdSteps c, InitBI.isRmCmd x = false := by
  intro x hx
  fin_cases hx <;> rfl

/-- Two environments that agree on non-teardown commands run any rm-free
step list identically. -/
theorem runSteps_agree (env env' : InitBI.BEnv) (steps : List InitBI.BCmd)
    (hok : ∀ c, InitBI.isRmCmd c = false → env.ok c = env'.ok c)
    (hsteps : ∀ c ∈ steps, InitBI.isRmCmd c = false) :
    InitBI.runSteps env steps = InitBI.runSteps env' steps := by
  induction steps with
  | nil => rfl
  | cons c rest ih =>
      have h1 := hok c (hsteps c (by simp))
      have h2 : ∀ x ∈ rest, InitBI.isRmCmd x = false :=
        fun x hx => hsteps x (by simp [hx])
      unfold InitBI.runSteps
      rw [h1, ih h2]

/-- Creation is insensitive to teardown outcomes. -/
theorem ecNew_agree (env env' : InitBI.BEnv) (u p : String)
    (hfrom : env.fromOut = env'.fromOut)
    (hok : ∀ c, InitBI.isRmCmd c = false → env.ok c = env'.ok c) :
    InitBI.ecNew env u p = InitBI.ecNew env' u p := by
  unfold InitBI.ecNew
  rw [hok (.bFrom "alpine:3.20") rfl, hfrom]

/-- Container building: result and issued commands are insensitive to
teardown outcomes. -/
theorem ecBuild_agree (env env' : InitBI.BEnv) (u p : String)
    (hfrom : env.fromOut = env'.fromOut)
    (hok : ∀ c, InitBI.isRmCmd c = false → env.ok c = env'.ok c) :
    (InitBI.ecBuild env u p).1 = (InitBI.ecBuild env' u p).1 ∧
      (InitBI.ecBuild env u p).2.map Prod.fst =
        (InitBI.ecBuild env' u p).2.map Prod.fst := by
  unfold InitBI.ecBuild
  rw [ecNew_agree env env' u p hfrom hok]
  rcases hnew : InitBI.ecNew env' u p with ⟨r, tr⟩
  cases r with
  | error e => simp
  | ok c =>
      dsimp only
      rw [runSteps_agree env env' (InitBI.setupSteps c) hok (setupSteps_no_rm c)]
      by_cases hs : (InitBI.runSteps env' (InitBI.setupSteps c)).1
      · rw [if_pos hs, if_pos hs]
        simp
      · rw [if_neg hs, if_neg hs]
        simp [InitBI.dropCmd]

/-- Initrd building: result and issued commands are insensitive to
teardown outcomes. -/
theorem buildInitrd_agree (env env' : InitBI.BEnv)
    (c : InitBI.EphemeralContainer) (ipath : String)
    (hok : ∀ x, InitBI.isRmCmd x = false → env.ok x = env'.ok x) :
    (InitBI.buildInitrd env c ipath).1 = (InitBI.buildInitrd env' c ipath).1 ∧
      (InitBI.buildInitrd env c ipath).2.map Prod.fst =
        (InitBI.buildInitrd env' c ipath).2.map Prod.fst := by
  unfold InitBI.buildInitrd
  rw [runSteps_agree env env' (InitBI.initrdSteps c) hok (initrdSteps_no_rm c),
    hok (.bUnshare c.container_id ("cp -r $MNT_PATH//initrd " ++ ipath)) rfl]
  by_cases h1 : (InitBI.runSteps env' (InitBI.initrdSteps c)).1
  · rw [if_pos h1, if_pos h1]
    by_cases h2 : env'.ok (.bUnshare c.container_id ("cp -r $MNT_PATH//initrd " ++ ipath))
    · rw [if_pos h2, if_pos h2]
      simp [InitBI.dropCmd]
    · rw [if_neg h2, if_neg h2]
      simp [InitBI.dropCmd]
  · rw [if_neg h1, if_neg h1]
    simp [InitBI.dropCmd]

/-- The kernel phase is insensitive to teardown outcomes. -/
theorem kernelPhase_agree (env env' : InitBI.BEnv) (fs : InitBI.FS)
    (hkb : env.kernelBytes = env'.kernelBytes)
    (hok : ∀ c, InitBI.isRmCmd c = false → env.ok c = env'.ok c) :
    InitBI.kernelPhase env fs = InitBI.kernelPhase env' fs := by
  unfold InitBI.kernelPhase
  rw [hok (.download InitBI.kernelUrl) rfl, hkb]

/-- The kernel phase issues no teardown command. -/
theorem kernelPhase_no_rm (env : InitBI.BEnv) (fs : InitBI.FS) (id : String) :
    ((InitBI.kernelPhase env fs).2.2.map Prod.fst).count (InitBI.BCmd.bRm id) = 0 := by
  unfold InitBI.kernelPhase
  by_cases h : fs.kernel.isSome
  · simp [h]
  · by_cases h2 : env.ok (.download InitBI.kernelUrl) <;> simp [h, h2]

/-- `init_images` as a whole: result, final filesystem and issued commands
are insensitive to teardown outcomes. -/
theorem initImages_agree (env env' : InitBI.BEnv) (fs : InitBI.FS)
    (ipath u p : String) (hagree : InitBI.agreeExceptRm env env') :
    (InitBI.initImages env fs ipath u p).1 = (InitBI.initImages env' fs ipath u p).1 ∧
      (InitBI.initImages env fs ipath u p).2.1 =
        (InitBI.initImages env' fs ipath u p).2.1 ∧
      (InitBI.initImages env fs ipath u p).2.2.map Prod.fst =
        (InitBI.initImages env' fs ipath u p).2.2.map Prod.fst := by
  obtain ⟨hfrom, hib, hkb, hok⟩ := hagree
  unfold InitBI.initImages
  by_cases hfs : fs.initrd.isSome
  · rw [if_pos hfs, if_pos hfs, kernelPhase_agree env env' fs hkb hok]
    exact ⟨rfl, rfl, rfl⟩
  · rw [if_neg hfs, if_neg hfs]
    obtain ⟨hb1, hb2⟩ := ecBuild_agree env env' u p hfrom hok
    rcases he : InitBI.ecBuild env u p with ⟨r, tr⟩
    rcases he' : InitBI.ecBuild env' u p with ⟨r', tr'⟩
    rw [he, he'] at hb1 hb2
    simp only at hb1 hb2
    cases r with
    | error e =>
        cases r' with
        | error e' =>
            obtain rfl : e = e' := by simpa using hb1
            exact ⟨rfl, rfl, by simpa using hb2⟩
        | ok c' => simp at hb1
    | ok c =>
        cases r' with
        | error e' => simp at hb1
        | ok c' =>
            obtain rfl : c = c' := by simpa using hb1
            dsimp only
            obtain ⟨hd1, hd2⟩ := buildInitrd_agree env env' c ipath hok
            rcases hbi : InitBI.buildInitrd env c ipath with ⟨s, tr2⟩
            rcases hbi' : InitBI.buildInitrd env' c ipath with ⟨s', tr2'⟩
            rw [hbi, hbi'] at hd1 hd2
            simp only at hd1 hd2
            cases s with
            | error e2 =>
                cases s' with
                | error e2' =>
                    obtain rfl : e2 = e2' := by simpa using hd1
                    refine ⟨rfl, rfl, ?_⟩
                    simp [hb2, hd2]
                | ok u' => simp at hd1
            | ok u0 =>
                cases s' with
                | error e2' => simp at hd1
                | ok u0' =>
                    dsimp only
                    rw [hib, kernelPhase_agree env env'
                      { fs with initrd := some env'.initrdBytes } hkb hok]
                    refine ⟨rfl, rfl, ?_⟩
                    simp [hb2, hd2]

/-- Once the container value exists (creation command succeeded, id valid),
`init_images` issues its teardown command exactly once, on every path. -/
theorem initImages_rm_once (env : InitBI.BEnv) (fs : InitBI.FS)
    (ipath u p : String)
    (hok : env.ok (.bFrom "alpine:3.20") = true)
    (hvalid : InitBI.validId (InitBI.trimStr env.fromOut) = true)
    (hfs : fs.initrd = none) :
    ((InitBI.initImages env fs ipath u p).2.2.map Prod.fst).count
      (InitBI.BCmd.bRm (InitBI.trimStr env.fromOut)) = 1 := by
  have hnew : InitBI.ecNew env u p =
      (.ok ⟨InitBI.trimStr env.fromOut, u, p, 1000, 1000⟩,
        [(InitBI.BCmd.bFrom "alpine:3.20", true)]) := by
    unfold InitBI.ecNew
    rw [if_pos hok, if_pos hvalid]
  unfold InitBI.initImages
  rw [if_neg (by rw [hfs]; simp)]
  unfold InitBI.ecBuild
  rw [hnew]
  dsimp only
  by_cases hs : (InitBI.runSteps env (InitBI.setupSteps
      ⟨InitBI.trimStr env.fromOut, u, p, 1000, 1000⟩)).1
  · rw [if_pos hs]
    dsimp only
    unfold InitBI.buildInitrd
    by_cases h1 : (InitBI.runSteps env (InitBI.initrdSteps
        ⟨InitBI.trimStr env.fromOut, u, p, 1000, 1000⟩)).1
    · rw [if_pos h1]
      by_cases h2 : env.ok (.bUnshare
          (InitBI.EphemeralContainer.mk (InitBI.trimStr env.fromOut) u p 1000 1000).container_id
          ("cp -r $MNT_PATH//initrd " ++ ipath))
      · rw [if_pos h2]
        dsimp only
        simp only [List.map_append, List.count_append, InitBI.dropCmd]
        rw [runSteps_no_rm env _ _ (setupSteps_no_rm _),
          runSteps_no_rm env _ _ (initrdSteps_no_rm _),
          kernelPhase_no_rm]
        simp [InitBI.isRmCmd]
      · rw [if_neg h2]
        dsimp only
        simp only [List.map_append, List.count_append, InitBI.dropCmd]
        rw [runSteps_no_rm env _ _ (setupSteps_no_rm _),
          runSteps_no_rm env _ _ (initrdSteps_no_rm _)]
        simp [InitBI.isRmCmd]
    · rw [if_neg h1]
      dsimp only
      simp only [List.map_append, List.count_append, InitBI.dropCmd]
      rw [runSteps_no_rm env _ _ (setupSteps_no_rm _),
        runSteps_no_rm env _ _ (initrdSteps_no_rm _)]
      simp [InitBI.isRmCmd]
  · rw [if_neg hs]
    dsimp only
    simp only [List.map_append, List.count_append, InitBI.dropCmd]
    rw [runSteps_no_rm env _ _ (setupSteps_no_rm _)]
    simp [InitBI.isRmCmd]

/-- Counterexample for C4: an error between the successful creation
command and id validation (here: the id contains a tab) exits the build
with the external root created but with no teardown command ever issued —
the trace holds exactly the successful creation command and the overall
run fails. -/
theorem C4_counterexample :
    envBadTab.ok (.bFrom "alpine:3.20") = true ∧
      (InitBI.initImages envBadTab ⟨none, none⟩ "/vm/initrd" "u" "p").2.2 =
        [(.bFrom "alpine:3.20", true)] ∧
      isOkE (InitBI.initImages envBadTab ⟨none, none⟩ "/vm/initrd" "u" "p").1 = false := by
  decide

/-- **C4 (amended)**: on every exit path of a build on which the
`EphemeralContainer` value was successfully constructed (the creation
command succeeded and its id passed validation), the teardown command
`buildah rm <id>` is issued exactly once — success and every error return
alike — when the owning value's scope ends; and a failure of that teardown
is only logged: the build's result, final filesystem, and issued command
sequence do not depend on the teardown outcomes.  (An error return between
the creation command and id validation issues no teardown.) -/
theorem C4_teardown_on_every_path (env env' : InitBI.BEnv) (fs : InitBI.FS)
    (ipath u p : String)
    (hok : env.ok (.bFrom "alpine:3.20") = true)
    (hvalid : InitBI.validId (InitBI.trimStr env.fromOut) = true)
    (hfs : fs.initrd = none)
    (hagree : InitBI.agreeExceptRm env env') :
    ((InitBI.initImages env fs ipath u p).2.2.map Prod.fst).count
        (InitBI.BCmd.bRm (InitBI.trimStr env.fromOut)) = 1 ∧
      (InitBI.initImages env fs ipath u p).1 =
        (InitBI.initImages env' fs ipath u p).1 ∧
      (InitBI.initImages env fs ipath u p).2.1 =
        (InitBI.initImages env' fs ipath u p).2.1 ∧
      (InitBI.initImages env fs ipath u p).2.2.map Prod.fst =
        (InitBI.initImages env' fs ipath u p).2.2.map Prod.fst :=
  ⟨initImages_rm_once env fs ipath u p hok hvalid hfs,
    initImages_agree env env' fs ipath u p hagree⟩

/-- Witness for C4 (amended): a fully successful build issues exactly one
teardown, and an environment in which exactly the teardown commands fail
produces the same result, filesystem and command sequence. -/
theorem C4_teardown_on_every_path_witness :
    ((InitBI.initImages envAllOk ⟨none, none⟩ "/vm/initrd" "u" "p").2.2.map Prod.fst).count
        (InitBI.BCmd.bRm (InitBI.trimStr envAllOk.fromOut)) = 1 ∧
      (InitBI.initImages envAllOk ⟨none, none⟩ "/vm/initrd" "u" "p").1 =
        (InitBI.initImages envRmFails ⟨none, none⟩ "/vm/initrd" "u" "p").1 ∧
      (InitBI.initImages envAllOk ⟨none, none⟩ "/vm/initrd" "u" "p").2.1 =
        (InitBI.initImages envRmFails ⟨none, none⟩ "/vm/initrd" "u" "p").2.1 ∧
      (InitBI.initImages envAllOk ⟨none, none⟩ "/vm/initrd" "u" "p").2.2.map Prod.fst =
        (InitBI.initImages envRmFails ⟨none, none⟩ "/vm/initrd" "u" "p").2.2.map Prod.fst :=
  C4_teardown_on_every_path envAllOk envRmFails ⟨none, none⟩ "/vm/initrd" "u" "p"
    rfl (by decide) rfl
    ⟨rfl, rfl, rfl, fun c h => by
      show (true : Bool) = !InitBI.isRmCmd c
      rw [h]
      rfl⟩
